import Mathlib

/-!
Shallow embedding of the hackernews-summary-notifications pipeline.

The repository holds two variants of the same Vercel serverless function:
* `src/api/hn.js` — digest mode: one combined notification for all stories
  (namespace `Digest` below);
* `src/unnamed/part_000` — per-story mode: one notification per story with a
  configurable `STORY_LIMIT` (namespace `PerStory` below).

HTML parsing (cheerio) and the network are external to the program, so a
fetched article page is embedded as the abstract result of the selector
queries the code performs (`Document`), and each network call as an oracle
value describing its outcome (`JsonOutcome`, `FetchOutcome`, `RelayOutcome`).
All JavaScript string and array operations the code relies on
(`String.prototype.split` on a regexp or literal separator, `Array.prototype.slice`,
`parseInt`, truthiness of `||` and `filter(Boolean)`) are embedded explicitly.
-/

namespace HN

/-- JS truthiness of a `string | undefined` value: `undefined` and `""` are falsy. -/
def truthy : Option String → Bool
  | none => false
  | some s => s != ""

/-- `[a, b, c].filter(Boolean)` over `(string | undefined)[]`: keeps the
non-`undefined`, non-empty entries in order. -/
def truthyFilter (xs : List (Option String)) : List String :=
  xs.filterMap fun o =>
    match o with
    | some s => if s = "" then none else some s
    | none => none

/-- JS `str.split(/\s+/)` on the character list: splits on maximal runs of
whitespace; a leading or trailing run contributes an empty token, and the
empty string yields `[""]`, exactly as in JavaScript. A whitespace character
opens a token boundary only at the last character of its run. -/
def splitWsRuns : List Char → List (List Char)
  | [] => [[]]
  | c :: cs =>
    let r := splitWsRuns cs
    if c.isWhitespace then
      match cs with
      | c2 :: _ => if c2.isWhitespace then r else [] :: r
      | [] => [] :: r
    else
      match r with
      | [] => [[c]]
      | t :: ts => (c :: t) :: ts

/-- `p.split(/\s+/).length`, the whitespace-delimited word count the code uses. -/
def wordCount (p : String) : Nat :=
  (splitWsRuns p.toList).length

/-- JS `str.trim()`: removes leading and trailing whitespace. -/
def jsTrim (s : String) : String :=
  ((s.toList.dropWhile Char.isWhitespace).reverse.dropWhile Char.isWhitespace).reverse.asString

/-- JS `str.split('. ')` on the character list: splits at each
non-overlapping, leftmost-first occurrence of the two-character sequence
`". "`. -/
def splitDotSpace : List Char → List (List Char)
  | [] => [[]]
  | '.' :: ' ' :: rest => [] :: splitDotSpace rest
  | c :: rest =>
    match splitDotSpace rest with
    | [] => [[c]]
    | t :: ts => (c :: t) :: ts

/-- Whether the two-character sequence `". "` occurs anywhere in the list. -/
def hasDotSpace : List Char → Bool
  | [] => false
  | '.' :: ' ' :: _ => true
  | _ :: rest => hasDotSpace rest

/-- JS `str.split('. ')` as a string-level operation. -/
def jsSplitDotSpace (s : String) : List String :=
  (splitDotSpace s.toList).map List.asString

/-- `sentences.slice(0, 2).join('. ') + '.'` applied to `p.split('. ')`:
the two-sentence truncation of the fallback paragraph. -/
def clipTwoSentences (p : String) : String :=
  String.intercalate ". " ((jsSplitDotSpace p).take 2) ++ "."

/-- Abstract result of the cheerio selector queries `extractSummary` performs
on a fetched page: the `content` attribute of the three meta tags (first
matching element, `none` when the selector matches nothing or the attribute
is absent) and the text of every `<p>` element in document order. -/
structure Document where
  metaDescription : Option String
  ogDescription : Option String
  twitterDescription : Option String
  paragraphTexts : List String
deriving DecidableEq

/-- Outcome of `fetch(url)` for an article page: the promise rejected
(network failure / the subsequent text or parse step threw), or an HTTP
response with its `ok` flag and the parsed document. -/
inductive FetchOutcome where
  | thrown
  | response (ok : Bool) (doc : Document)
deriving DecidableEq

/-- The summary heuristic shared verbatim by both variants, applied to a
successfully fetched and parsed page: first non-empty meta description in
the fixed order description, og:description, twitter:description; otherwise
the two-sentence clip of the first paragraph whose trimmed text has at least
20 whitespace-delimited words; otherwise the empty string. -/
def summaryFromDoc (doc : Document) : String :=
  match truthyFilter [doc.metaDescription, doc.ogDescription, doc.twitterDescription] with
  | t :: _ => t
  | [] =>
    match (doc.paragraphTexts.map jsTrim).filter (fun p => 20 ≤ wordCount p) with
    | p :: _ => clipTwoSentences p
    | [] => ""

/-- JS `parseInt(s, 10)` on a `string | undefined` environment value, as an
optional integer (`none` models `NaN`): skip leading whitespace, accept an
optional sign, then read leading decimal digits; no digits means `NaN`.
`parseInt(undefined, 10)` coerces `undefined` to the string `"undefined"`,
which has no leading digits, hence also `NaN`. -/
def digitsVal (ds : List Char) : Nat :=
  ds.foldl (fun a c => 10 * a + (c.toNat - '0'.toNat)) 0

/-- The maximal run of leading decimal digits, `none` when there is none. -/
def leadingNat (cs : List Char) : Option Nat :=
  let ds := cs.takeWhile (·.isDigit)
  if ds.isEmpty then none else some (digitsVal ds)

/-- See `digitsVal`; `none` input models an unset environment variable. -/
def jsParseInt10 : Option String → Option Int
  | none => none
  | some s =>
    match s.toList.dropWhile (·.isWhitespace) with
    | '-' :: rest => (leadingNat rest).map (fun n => -(n : Int))
    | '+' :: rest => (leadingNat rest).map (fun n => (n : Int))
    | cs => (leadingNat cs).map (fun n => (n : Int))

/-- JS `v || d` on numbers, where `none` models `NaN`: `NaN` and `0` are
falsy and give the default. -/
def jsOrInt (v : Option Int) (d : Int) : Int :=
  match v with
  | none => d
  | some n => if n = 0 then d else n

/-- JS `arr.slice(0, e)` for an integer `e` (as produced by `parseInt`):
a nonnegative end index takes that many elements, a negative one counts
from the end of the array. -/
def jsSlice (l : List Int) (e : Int) : List Int :=
  if 0 ≤ e then l.take e.toNat else l.take (l.length - (-e).toNat)

/-- Outcome of a `fetch`+`res.json()` pair: the promise chain rejected or
`!res.ok` (both surface as a thrown error inside `fetchJSON`), or a parsed
JSON value. -/
inductive JsonOutcome (α : Type) where
  | thrown
  | ok (v : α)
deriving DecidableEq

/-- Parsed payload of the top-stories endpoint. `nonArray` stands for a JSON
value that is neither an array nor a string, hence has no `slice` method:
`null`, a boolean, a number or an object. A JSON string is the remaining
non-array payload and gets its own constructor `str`, because a string does
have `slice` and is iterable: `Array.isArray` rejects it (part_000), but
hn.js's `ids.slice(0, 10)` succeeds on it and `for (const id of topIds)`
then iterates its characters as ids. -/
inductive TopPayload where
  | arr (ids : List Int)
  | str (s : String)
  | nonArray
deriving DecidableEq

/-- Story metadata from the item endpoint. The endpoint returns JSON `null`
for unknown ids, so the oracle yields `JsonOutcome (Option Item)`. `url` is
`none` when the field is absent (text-only posts). -/
structure Item where
  title : String
  url : Option String
  score : Option Int
deriving DecidableEq

/-- An enriched story as built in the handler loops. The per-story variant
never reads `score`; it is carried as `0` there. -/
structure Story where
  title : String
  url : String
  score : Int
  summary : String
deriving DecidableEq

/-- One POST to the ntfy relay: title, tags and optional click-action
headers, plus the body text. -/
structure Notification where
  title : String
  tags : String
  click : Option String
  body : String
deriving DecidableEq

/-- Outcome of the relay POST: the fetch promise rejected, or an HTTP
response with its `ok` flag. -/
inductive RelayOutcome where
  | thrown
  | response (ok : Bool)
deriving DecidableEq

/-- What the handler reports to the invoker:
`res.status(200).json({ success: true, sent/count })` or
`res.status(s).json({ error: msg })`. -/
inductive ApiResponse where
  | success (count : Nat)
  | failure (status : Nat) (error : String)
deriving DecidableEq

/-- Default tag string (`process.env.NTFY_TAGS || 'news'`). -/
def TAGS : String := "news"

namespace PerStory

/-! Embedding of `src/unnamed/part_000`: per-story notification mode. -/

/-- `parseInt(process.env.STORY_LIMIT, 10) || 10`, as a function of the
environment value. -/
def LIMIT (storyLimit : Option String) : Int :=
  jsOrInt (jsParseInt10 storyLimit) 10

/-- `fetchJSON` of part_000: any thrown error (network failure or non-ok
response) is caught and returns `null`. -/
def fetchJSON {α : Type} : JsonOutcome α → Option α
  | .thrown => none
  | .ok v => some v

/-- `extractSummary` of part_000: the whole body is wrapped in try/catch, so
a thrown fetch/parse error yields `''`; a non-ok response yields `''`; a
parsed page goes through the shared heuristic. -/
def extractSummary : FetchOutcome → String
  | .thrown => ""
  | .response ok doc => if ok then summaryFromDoc doc else ""

/-- The payload `sendNotification` POSTs for one story. -/
def notificationOf (story : Story) : Notification :=
  { title := story.title, tags := TAGS, click := some story.url,
    body := story.summary ++ "\n" ++ story.url }

/-- `sendNotification` of part_000: builds the POST, awaits the relay. A
non-ok response is only logged; a rejected fetch propagates to the caller. -/
def sendNotification (outcome : RelayOutcome) (story : Story) : Except Unit Notification :=
  match outcome with
  | .thrown => .error ()
  | .response _ => .ok (notificationOf story)

/-- Observable trace of the per-story loop: the final `sent` counter, the
ids whose item endpoint was requested, the ids whose article page was
scraped, the ids for which a notification was attempted, and the attempted
relay payloads, all in processing order. -/
structure LoopTrace where
  sent : Nat
  itemFetches : List Int
  scraped : List Int
  notifiedIds : List Int
  notifications : List Notification
deriving DecidableEq

/-- The `for (const id of topIds)` loop of part_000's handler. `item` and
`page` are the network oracles; `relay k` is the outcome of the `k`-th relay
POST of the run. A missing item or a falsy `url` hits `continue` before
`sent++`; otherwise the notification attempt is wrapped in try/catch and
`sent++` runs regardless of its outcome. -/
def loop (item : Int → JsonOutcome (Option Item)) (page : String → FetchOutcome)
    (relay : Nat → RelayOutcome) : Nat → List Int → LoopTrace
  | _, [] => ⟨0, [], [], [], []⟩
  | k, id :: rest =>
    match fetchJSON (item id) with
    | none =>
      let t := loop item page relay k rest
      { t with itemFetches := id :: t.itemFetches }
    | some none =>
      let t := loop item page relay k rest
      { t with itemFetches := id :: t.itemFetches }
    | some (some it) =>
      if truthy it.url then
        let u := it.url.getD ""
        let s := extractSummary (page u)
        let story : Story :=
          { title := it.title, url := u, score := 0,
            summary := if s = "" then "(No summary available)" else s }
        let t :=
          match sendNotification (relay k) story with
          | .ok _ => loop item page relay (k + 1) rest
          | .error _ => loop item page relay (k + 1) rest
        ⟨t.sent + 1, id :: t.itemFetches, id :: t.scraped, id :: t.notifiedIds,
          notificationOf story :: t.notifications⟩
      else
        let t := loop item page relay k rest
        { t with itemFetches := id :: t.itemFetches }

/-- Trace of a whole per-story run. -/
structure RunTrace where
  response : ApiResponse
  itemFetches : List Int
  scraped : List Int
  notifiedIds : List Int
  notifications : List Notification
deriving DecidableEq

/-- part_000's `handler`, with the configured limit and the network oracles
as parameters: fetch the id list, reject with a 500 anything that fails the
`Array.isArray(ids)` check — a failed fetch (`null`), a non-array value, or
a string — otherwise slice to the limit and run the loop, answering
`{ success: true, sent }`. -/
def handler (limit : Int) (top : JsonOutcome TopPayload)
    (item : Int → JsonOutcome (Option Item)) (page : String → FetchOutcome)
    (relay : Nat → RelayOutcome) : RunTrace :=
  match fetchJSON top with
  | some (.arr ids) =>
    let t := loop item page relay 0 (jsSlice ids limit)
    ⟨.success t.sent, t.itemFetches, t.scraped, t.notifiedIds, t.notifications⟩
  | some (.str _) => ⟨.failure 500 "Failed to fetch top stories", [], [], [], []⟩
  | some .nonArray => ⟨.failure 500 "Failed to fetch top stories", [], [], [], []⟩
  | none => ⟨.failure 500 "Failed to fetch top stories", [], [], [], []⟩

end PerStory

namespace Digest

/-! Embedding of `src/api/hn.js`: single-digest notification mode. -/

/-- Default digest title (`process.env.NTFY_TITLE || 'Hacker News Top 10'`). -/
def TITLE : String := "Hacker News Top 10"

/-- `fetchJSON` of hn.js: no try/catch — a rejected fetch or a non-ok
response throws to the caller. -/
def fetchJSON {α : Type} : JsonOutcome α → Except Unit α
  | .thrown => .error ()
  | .ok v => .ok v

/-- `extractSummary` of hn.js: no try/catch — a non-ok response returns
`''`, but a rejected fetch (or a throwing text/parse step) propagates to
the caller. -/
def extractSummary : FetchOutcome → Except Unit String
  | .thrown => .error ()
  | .response ok doc => .ok (if ok then summaryFromDoc doc else "")

/-- Observable trace of hn.js's story loop. `aborted` records that an
exception escaped the loop (discarding the accumulated `stories`);
`itemFetches` and `scraped` record the requests issued up to that point.
The id type `ι` is `Int` for an array payload; for a string payload,
`for (const id of topIds)` yields the string's characters, so `ι` is `Char`
there. -/
structure LoopOut (ι : Type) where
  aborted : Bool
  stories : List (ι × Story)
  itemFetches : List ι
  scraped : List ι
deriving DecidableEq

/-- The `for (const id of topIds)` loop of hn.js's handler, over whatever
ids the payload yields. A thrown item fetch or a thrown page scrape escapes
the loop; a `null` item or a falsy `url` is skipped with `continue`. -/
def loop {ι : Type} (item : ι → JsonOutcome (Option Item)) (page : String → FetchOutcome) :
    List ι → LoopOut ι
  | [] => ⟨false, [], [], []⟩
  | id :: rest =>
    match fetchJSON (item id) with
    | .error _ => ⟨true, [], [id], []⟩
    | .ok none =>
      let t := loop item page rest
      { t with itemFetches := id :: t.itemFetches }
    | .ok (some it) =>
      if truthy it.url then
        let u := it.url.getD ""
        match extractSummary (page u) with
        | .error _ => ⟨true, [], [id], [id]⟩
        | .ok s =>
          let story : Story :=
            { title := it.title, url := u, score := jsOrInt it.score 0,
              summary := if s = "" then "(No summary available)" else s }
          let t := loop item page rest
          ⟨t.aborted, (id, story) :: t.stories, id :: t.itemFetches, id :: t.scraped⟩
      else
        let t := loop item page rest
        { t with itemFetches := id :: t.itemFetches }

/-- The digest body: one numbered block per story with title, score, summary
and URL, each block ending in a blank line. -/
def digestBody (stories : List Story) : String :=
  String.join (stories.enum.map fun p =>
    toString (p.1 + 1) ++ ". " ++ p.2.title ++ " (score: " ++ toString p.2.score ++ ")\n   "
      ++ p.2.summary ++ "\n   " ++ p.2.url ++ "\n\n")

/-- Trace of a whole digest run. `storyIds` are the ids of the stories in
the enriched sequence the digest was composed from. The `...C` fields are
the same observations for a string-payload run, whose "ids" are the
payload's characters; they are empty in every other run, as the integer
fields are in a string-payload run. -/
structure RunTrace where
  response : ApiResponse
  itemFetches : List Int
  scraped : List Int
  storyIds : List Int
  itemFetchesC : List Char
  scrapedC : List Char
  storyIdsC : List Char
  notifications : List Notification
deriving DecidableEq

/-- hn.js's `handler`: everything sits inside one try/catch. A thrown top
fetch, a payload with no `slice` method (whose `ids.slice(0, 10)` raises a
TypeError), or an exception escaping the loop ends in the catch block with
`res.status(500).json({ error: 'Failed to fetch or send stories' })`.
A string payload is NOT rejected: `slice` keeps its first 10 characters and
the loop iterates them as ids, each interpolated into the item URL; `itemC`
is the oracle for those character-keyed item requests. When the loop
completes, one digest POST is made; its response is never inspected, but a
rejected relay fetch also lands in the catch block. -/
def handler (top : JsonOutcome TopPayload) (item : Int → JsonOutcome (Option Item))
    (itemC : Char → JsonOutcome (Option Item)) (page : String → FetchOutcome)
    (relay : RelayOutcome) : RunTrace :=
  match fetchJSON top with
  | .error _ =>
    ⟨.failure 500 "Failed to fetch or send stories", [], [], [], [], [], [], []⟩
  | .ok .nonArray =>
    ⟨.failure 500 "Failed to fetch or send stories", [], [], [], [], [], [], []⟩
  | .ok (.arr ids) =>
    let t := loop item page (ids.take 10)
    if t.aborted then
      ⟨.failure 500 "Failed to fetch or send stories", t.itemFetches, t.scraped, [],
        [], [], [], []⟩
    else
      let stories := t.stories.map Prod.snd
      let note : Notification := ⟨TITLE, TAGS, none, digestBody stories⟩
      match relay with
      | .thrown =>
        ⟨.failure 500 "Failed to fetch or send stories", t.itemFetches, t.scraped,
          t.stories.map Prod.fst, [], [], [], [note]⟩
      | .response _ =>
        ⟨.success stories.length, t.itemFetches, t.scraped, t.stories.map Prod.fst,
          [], [], [], [note]⟩
  | .ok (.str s) =>
    let t := loop itemC page (s.toList.take 10)
    if t.aborted then
      ⟨.failure 500 "Failed to fetch or send stories", [], [], [],
        t.itemFetches, t.scraped, [], []⟩
    else
      let stories := t.stories.map Prod.snd
      let note : Notification := ⟨TITLE, TAGS, none, digestBody stories⟩
      match relay with
      | .thrown =>
        ⟨.failure 500 "Failed to fetch or send stories", [], [], [],
          t.itemFetches, t.scraped, t.stories.map Prod.fst, [note]⟩
      | .response _ =>
        ⟨.success stories.length, [], [], [],
          t.itemFetches, t.scraped, t.stories.map Prod.fst, [note]⟩

end Digest

/-! ### Helper lemmas -/

theorem intercalate_singleton (s p : String) : String.intercalate s [p] = p := rfl

theorem asString_self_toList (s : String) : s.toList.asString = s := rfl

/-- A list without an occurrence of `". "` is returned whole by
`splitDotSpace`, as a single segment. -/
theorem splitDotSpace_eq_self (l : List Char) :
    hasDotSpace l = false → splitDotSpace l = [l] := by
  induction l using splitDotSpace.induct with
  | case1 => intro _; rfl
  | case2 rest ih => intro h; simp [hasDotSpace] at h
  | case3 c rest hne hnil ih =>
    intro h
    have hrest : hasDotSpace rest = false := by
      rw [hasDotSpace.eq_3 c rest hne] at h
      exact h
    rw [ih hrest] at hnil
    exact absurd hnil (by simp)
  | case4 c rest hne t ts heq ih =>
    intro h
    have hrest : hasDotSpace rest = false := by
      rw [hasDotSpace.eq_3 c rest hne] at h
      exact h
    rw [splitDotSpace.eq_3 c rest hne, ih hrest]

/-- If the meta-tag list filtered by JS truthiness is nonempty, the shared
heuristic returns its head and never looks at paragraphs. -/
theorem summaryFromDoc_eq_meta_head (d : Document) (t : String)
    (h : (truthyFilter [d.metaDescription, d.ogDescription, d.twitterDescription]).head? = some t) :
    summaryFromDoc d = t := by
  unfold summaryFromDoc
  cases hl : truthyFilter [d.metaDescription, d.ogDescription, d.twitterDescription] with
  | nil => rw [hl] at h; simp at h
  | cons a as =>
    rw [hl] at h
    simp only [List.head?, Option.some.injEq] at h
    subst h
    simp [hl]

/-- With no truthy meta tag, the shared heuristic reduces to the paragraph
fallback. -/
theorem summaryFromDoc_eq_fallback (d : Document)
    (hmeta : truthyFilter [d.metaDescription, d.ogDescription, d.twitterDescription] = []) :
    summaryFromDoc d =
      match (d.paragraphTexts.map jsTrim).filter (fun p => 20 ≤ wordCount p) with
      | p :: _ => clipTwoSentences p
      | [] => "" := by
  unfold summaryFromDoc
  rw [hmeta]

/-- On a paragraph without `". "`, the two-sentence clip appends a single
period to the whole paragraph. -/
theorem clipTwoSentences_of_no_dotSpace (p : String) (h : hasDotSpace p.toList = false) :
    clipTwoSentences p = p ++ "." := by
  unfold clipTwoSentences jsSplitDotSpace
  rw [splitDotSpace_eq_self p.toList h]
  simp only [List.map_cons, List.map_nil, asString_self_toList, List.take,
    intercalate_singleton]

/-- The per-story loop requests the item endpoint for every id of its input
list, in order, whatever the oracles answer. -/
theorem perStoryLoop_itemFetches (item : Int → JsonOutcome (Option Item))
    (page : String → FetchOutcome) (relay : Nat → RelayOutcome) :
    ∀ (k : Nat) (l : List Int), (PerStory.loop item page relay k l).itemFetches = l := by
  intro k l
  induction l generalizing k with
  | nil => rfl
  | cons id rest ih =>
    simp only [PerStory.loop]
    cases h1 : PerStory.fetchJSON (item id) with
    | none => simp [ih]
    | some v =>
      cases v with
      | none => simp [ih]
      | some it =>
        cases h2 : truthy it.url with
        | false => simp [h2, ih]
        | true =>
          simp only [h2, if_true]
          cases hr : relay k <;> simp [PerStory.sendNotification, ih]

/-- The per-story loop trace does not depend on the relay outcomes or on the
attempt counter: delivery results influence only logging in the source. -/
theorem perStoryLoop_relay_irrelevant (item : Int → JsonOutcome (Option Item))
    (page : String → FetchOutcome) (r1 r2 : Nat → RelayOutcome) :
    ∀ (k1 k2 : Nat) (l : List Int),
      PerStory.loop item page r1 k1 l = PerStory.loop item page r2 k2 l := by
  intro k1 k2 l
  induction l generalizing k1 k2 with
  | nil => rfl
  | cons id rest ih =>
    simp only [PerStory.loop]
    cases h1 : PerStory.fetchJSON (item id) with
    | none => simp [ih k1 k2]
    | some v =>
      cases v with
      | none => simp [ih k1 k2]
      | some it =>
        cases h2 : truthy it.url with
        | false => simp [h2, ih k1 k2]
        | true =>
          simp only [h2, if_true]
          cases hr1 : r1 k1 <;> cases hr2 : r2 k2 <;>
            simp [PerStory.sendNotification, ih (k1 + 1) (k2 + 1)]

/-- The final `sent` counter equals the number of ids for which a
notification was attempted. -/
theorem perStoryLoop_sent_eq_length (item : Int → JsonOutcome (Option Item))
    (page : String → FetchOutcome) (relay : Nat → RelayOutcome) :
    ∀ (k : Nat) (l : List Int),
      (PerStory.loop item page relay k l).sent
        = (PerStory.loop item page relay k l).notifiedIds.length := by
  intro k l
  induction l generalizing k with
  | nil => rfl
  | cons id rest ih =>
    simp only [PerStory.loop]
    cases h1 : PerStory.fetchJSON (item id) with
    | none => simp [ih]
    | some v =>
      cases v with
      | none => simp [ih]
      | some it =>
        cases h2 : truthy it.url with
        | false => simp [h2, ih]
        | true =>
          simp only [h2, if_true]
          cases hr : relay k <;> simp [PerStory.sendNotification, ih]

/-- An item answer with no story object or no url field. -/
def itemNoUrl (r : JsonOutcome (Option Item)) : Prop :=
  r = .ok none ∨ ∃ it : Item, r = .ok (some it) ∧ it.url = none

/-- An id whose item endpoint yields no story or no url is never scraped and
never notified by the per-story loop. -/
theorem perStoryLoop_skips (item : Int → JsonOutcome (Option Item))
    (page : String → FetchOutcome) (relay : Nat → RelayOutcome) (id : Int)
    (h : itemNoUrl (item id)) :
    ∀ (k : Nat) (l : List Int),
      id ∉ (PerStory.loop item page relay k l).scraped ∧
      id ∉ (PerStory.loop item page relay k l).notifiedIds := by
  intro k l
  induction l generalizing k with
  | nil => simp [PerStory.loop]
  | cons j rest ih =>
    simp only [PerStory.loop]
    cases h1 : PerStory.fetchJSON (item j) with
    | none => simpa using ih k
    | some v =>
      cases v with
      | none => simpa using ih k
      | some it =>
        cases h2 : truthy it.url with
        | false => simpa [h2] using ih k
        | true =>
          have hj : j ≠ id := by
            intro he
            subst he
            rcases h with h0 | ⟨it2, h3, h4⟩
            · rw [h0] at h1
              simp [PerStory.fetchJSON] at h1
            · rw [h3] at h1
              simp only [PerStory.fetchJSON, Option.some.injEq] at h1
              rw [← h1] at h2
              rw [h4] at h2
              simp [truthy] at h2
          simp only [h2, if_true]
          cases hr : relay k <;>
            simp [PerStory.sendNotification, List.mem_cons, Ne.symm hj,
              (ih (k + 1)).1, (ih (k + 1)).2]

/-- Every id the digest loop requests comes from its input list. -/
theorem digestLoop_itemFetches_sub (item : Int → JsonOutcome (Option Item))
    (page : String → FetchOutcome) :
    ∀ (l : List Int) (j : Int), j ∈ (Digest.loop item page l).itemFetches → j ∈ l := by
  intro l
  induction l with
  | nil => intro j hj; simp [Digest.loop] at hj
  | cons id rest ih =>
    intro j
    simp only [Digest.loop]
    cases h1 : Digest.fetchJSON (item id) with
    | error e =>
      intro hj
      simp at hj
      simp [hj]
    | ok v =>
      cases v with
      | none =>
        intro hj
        simp at hj
        rcases hj with hj | hj
        · simp [hj]
        · exact List.mem_cons_of_mem _ (ih j hj)
      | some it =>
        intro hj
        cases h2 : truthy it.url with
        | false =>
          simp [h2] at hj
          rcases hj with hj | hj
          · simp [hj]
          · exact List.mem_cons_of_mem _ (ih j hj)
        | true =>
          cases h3 : Digest.extractSummary (page (it.url.getD "")) with
          | error e =>
            simp [h2, h3] at hj
            simp [hj]
          | ok s =>
            simp [h2, h3] at hj
            rcases hj with hj | hj
            · simp [hj]
            · exact List.mem_cons_of_mem _ (ih j hj)

/-- An id whose item endpoint yields no story or no url is never scraped by
the digest loop and never enters its story sequence. -/
theorem digestLoop_skips (item : Int → JsonOutcome (Option Item))
    (page : String → FetchOutcome) (id : Int) (h : itemNoUrl (item id)) :
    ∀ l : List Int,
      id ∉ (Digest.loop item page l).scraped ∧
      id ∉ (Digest.loop item page l).stories.map Prod.fst := by
  intro l
  induction l with
  | nil => simp [Digest.loop]
  | cons j rest ih =>
    simp only [Digest.loop]
    cases h1 : Digest.fetchJSON (item j) with
    | error e =>
      have hj : j ≠ id := by
        intro he
        subst he
        rcases h with h0 | ⟨it2, h3, h4⟩
        · rw [h0] at h1
          simp [Digest.fetchJSON] at h1
        · rw [h3] at h1
          simp [Digest.fetchJSON] at h1
      simp [Ne.symm hj]
    | ok v =>
      cases v with
      | none => simpa using ih
      | some it =>
        cases h2 : truthy it.url with
        | false => simpa [h2] using ih
        | true =>
          have hj : j ≠ id := by
            intro he
            subst he
            rcases h with h0 | ⟨it2, h3, h4⟩
            · rw [h0] at h1
              simp [Digest.fetchJSON] at h1
            · rw [h3] at h1
              simp only [Digest.fetchJSON, Except.ok.injEq, Option.some.injEq] at h1
              rw [← h1] at h2
              rw [h4] at h2
              simp [truthy] at h2
          simp only [h2, if_true]
          cases h3 : Digest.extractSummary (page (it.url.getD "")) with
          | error e => simp [Ne.symm hj]
          | ok s => simp [List.mem_cons, Ne.symm hj, ih.1, ih.2]

/-- When every item request of a digest loop yields JSON `null` — as the
upstream API does for the character-keyed ids of a string payload — the loop
skips every id: no abort, no story, no scrape, every id requested. -/
theorem digestLoop_null_items {ι : Type} (page : String → FetchOutcome) :
    ∀ l : List ι,
      Digest.loop (fun _ => (.ok none : JsonOutcome (Option Item))) page l
        = ⟨false, [], l, []⟩ := by
  intro l
  induction l with
  | nil => rfl
  | cons c rest ih => simp [Digest.loop, Digest.fetchJSON, ih]

/-! ### Claim theorems -/

/-- C1: for every fetched page whose meta description tag carries a
non-empty content value, `extractSummary` (in both variants) returns exactly
that value, ignoring body paragraphs; in general it returns the first
non-empty value among meta description, og:description and
twitter:description, in that fixed order. -/
theorem extractSummary_meta_description_priority :
    (∀ (d : Document) (s : String), d.metaDescription = some s → s ≠ "" →
        PerStory.extractSummary (.response true d) = s ∧
        Digest.extractSummary (.response true d) = .ok s) ∧
    (∀ (d : Document) (t : String),
        (truthyFilter [d.metaDescription, d.ogDescription, d.twitterDescription]).head?
          = some t →
        PerStory.extractSummary (.response true d) = t ∧
        Digest.extractSummary (.response true d) = .ok t) := by
  have core : ∀ (d : Document) (t : String),
      (truthyFilter [d.metaDescription, d.ogDescription, d.twitterDescription]).head?
        = some t →
      PerStory.extractSummary (.response true d) = t ∧
      Digest.extractSummary (.response true d) = .ok t := by
    intro d t h
    have hs := summaryFromDoc_eq_meta_head d t h
    exact ⟨by simpa [PerStory.extractSummary] using hs,
           by simpa [Digest.extractSummary] using hs⟩
  refine ⟨?_, core⟩
  intro d s h1 h2
  apply core
  simp [truthyFilter, h1, h2]

/-- A page whose meta description is `"X"` despite a long body paragraph. -/
def metaPage : Document :=
  ⟨some "X", some "Y", none,
    ["one two three four five six seven eight nine ten eleven twelve thirteen fourteen fifteen sixteen seventeen eighteen nineteen twenty"]⟩

/-- Witness for C1: on `metaPage`, extractSummary returns exactly `"X"`. -/
theorem extractSummary_meta_description_priority_witness :
    PerStory.extractSummary (.response true metaPage) = "X" :=
  (extractSummary_meta_description_priority.1 metaPage "X" rfl (by decide)).1

/-- C2: with no non-empty description meta tag, `extractSummary` takes the
first paragraph (in document order) whose trimmed text has at least 20
whitespace-delimited words, splits it on `". "`, keeps at most the first two
segments and rejoins them with `". "` plus a trailing period
(`clipTwoSentences`); with no qualifying paragraph it returns `""`. -/
theorem extractSummary_paragraph_fallback (d : Document)
    (hmeta : truthyFilter [d.metaDescription, d.ogDescription, d.twitterDescription] = []) :
    (∀ (p : String) (rest : List String),
        (d.paragraphTexts.map jsTrim).filter (fun q => 20 ≤ wordCount q) = p :: rest →
        PerStory.extractSummary (.response true d) = clipTwoSentences p ∧
        Digest.extractSummary (.response true d) = .ok (clipTwoSentences p)) ∧
    ((d.paragraphTexts.map jsTrim).filter (fun q => 20 ≤ wordCount q) = [] →
        PerStory.extractSummary (.response true d) = "" ∧
        Digest.extractSummary (.response true d) = .ok "") := by
  have base := summaryFromDoc_eq_fallback d hmeta
  constructor
  · intro p rest hp
    rw [hp] at base
    exact ⟨by simpa [PerStory.extractSummary] using base,
           by simpa [Digest.extractSummary] using base⟩
  · intro hp
    rw [hp] at base
    exact ⟨by simpa [PerStory.extractSummary] using base,
           by simpa [Digest.extractSummary] using base⟩

/-- A meta-less page whose only paragraph has 25 words in three sentences. -/
def threeSentencePage : Document :=
  ⟨none, none, none,
    ["alpha beta gamma delta epsilon zeta eta theta iota. kappa lambda mu nu xi omicron pi rho. sigma tau upsilon phi chi psi omega end."]⟩

/-- Witness for C2: on `threeSentencePage` the 25-word paragraph
`"A. B. C."` is clipped to `"A. B."`. -/
theorem extractSummary_paragraph_fallback_witness :
    PerStory.extractSummary (.response true threeSentencePage)
      = "alpha beta gamma delta epsilon zeta eta theta iota. kappa lambda mu nu xi omicron pi rho." :=
  (((extractSummary_paragraph_fallback threeSentencePage rfl).1
      "alpha beta gamma delta epsilon zeta eta theta iota. kappa lambda mu nu xi omicron pi rho. sigma tau upsilon phi chi psi omega end."
      [] (by decide)).1).trans (by decide)

/-- C9: a qualifying fallback paragraph whose text has no occurrence of the
two-character sequence `". "` is returned whole with one `"."` appended; a
paragraph already ending in `"."` therefore yields a result ending in the
doubled period `".."`. -/
theorem extractSummary_no_sentence_boundary (d : Document) (p : String) (rest : List String)
    (hmeta : truthyFilter [d.metaDescription, d.ogDescription, d.twitterDescription] = [])
    (hfirst : (d.paragraphTexts.map jsTrim).filter (fun q => 20 ≤ wordCount q) = p :: rest)
    (hnb : hasDotSpace p.toList = false) :
    PerStory.extractSummary (.response true d) = p ++ "." ∧
    ∀ q : String, p = q ++ "." → PerStory.extractSummary (.response true d) = q ++ ".." := by
  have base := summaryFromDoc_eq_fallback d hmeta
  rw [hfirst] at base
  have h1 : PerStory.extractSummary (.response true d) = p ++ "." := by
    simpa [PerStory.extractSummary, clipTwoSentences_of_no_dotSpace p hnb] using base
  refine ⟨h1, ?_⟩
  intro q hq
  rw [h1, hq, String.append_assoc]
  rfl

/-- A meta-less page whose only paragraph has 20 words, a single sentence
ending in a period. -/
def singleSentencePage : Document :=
  ⟨none, none, none,
    ["b1 b2 b3 b4 b5 b6 b7 b8 b9 b10 b11 b12 b13 b14 b15 b16 b17 b18 b19 finis."]⟩

/-- Witness for C9: the single-sentence paragraph comes back whole with an
extra period, ending in `".."`. -/
theorem extractSummary_no_sentence_boundary_witness :
    PerStory.extractSummary (.response true singleSentencePage)
      = "b1 b2 b3 b4 b5 b6 b7 b8 b9 b10 b11 b12 b13 b14 b15 b16 b17 b18 b19 finis.." :=
  (extractSummary_no_sentence_boundary singleSentencePage
      "b1 b2 b3 b4 b5 b6 b7 b8 b9 b10 b11 b12 b13 b14 b15 b16 b17 b18 b19 finis."
      [] rfl (by decide) (by decide)).2
    "b1 b2 b3 b4 b5 b6 b7 b8 b9 b10 b11 b12 b13 b14 b15 b16 b17 b18 b19 finis" (by decide)

/-- C3 counterexample: in the digest variant (`src/api/hn.js`),
`extractSummary` has no try/catch — a rejected article fetch propagates as
an error instead of yielding `""`, and a concrete run whose only article
fetch rejects is aborted with a 500 and no notification. -/
theorem digest_extractSummary_propagates :
    Digest.extractSummary FetchOutcome.thrown = .error () ∧
    (Digest.handler (.ok (.arr [1])) (fun _ => .ok (some ⟨"T", some "u", some 1⟩))
        (fun _ => .ok none) (fun _ => .thrown) (.response true)).response
      = .failure 500 "Failed to fetch or send stories" ∧
    (Digest.handler (.ok (.arr [1])) (fun _ => .ok (some ⟨"T", some "u", some 1⟩))
        (fun _ => .ok none) (fun _ => .thrown) (.response true)).notifications = [] := by
  exact ⟨rfl, by decide, by decide⟩

/-- C3 amended: in the per-story variant (part_000) every failure inside
`extractSummary` is caught and yields `""`, never reaching the caller; in
the digest variant (hn.js) only a non-ok HTTP response yields `""`, while a
rejected fetch or throwing parse propagates to the handler as an error. -/
theorem extractSummary_error_containment :
    PerStory.extractSummary FetchOutcome.thrown = "" ∧
    (∀ d : Document, PerStory.extractSummary (.response false d) = "") ∧
    (∀ d : Document, Digest.extractSummary (.response false d) = .ok "") ∧
    Digest.extractSummary FetchOutcome.thrown = .error () :=
  ⟨rfl, fun _ => rfl, fun _ => rfl, rfl⟩

/-- C4: for every configured limit `L ≥ 0` the per-story handler requests
the item endpoint exactly for the first `min(L, length)` upstream ids, in
upstream order; any id outside that prefix is never requested. The digest
handler (fixed limit 10) likewise only ever requests ids from the first 10
entries. -/
theorem lister_respects_limit (L : Int) (hL : 0 ≤ L) (ids : List Int)
    (item : Int → JsonOutcome (Option Item)) (itemC : Char → JsonOutcome (Option Item))
    (page : String → FetchOutcome)
    (relay : Nat → RelayOutcome) (relayD : RelayOutcome) :
    (PerStory.handler L (.ok (.arr ids)) item page relay).itemFetches = ids.take L.toNat ∧
    (PerStory.handler L (.ok (.arr ids)) item page relay).itemFetches.length ≤ L.toNat ∧
    (∀ j : Int, j ∉ ids.take L.toNat →
        j ∉ (PerStory.handler L (.ok (.arr ids)) item page relay).itemFetches) ∧
    (∀ j : Int,
        j ∈ (Digest.handler (.ok (.arr ids)) item itemC page relayD).itemFetches →
        j ∈ ids.take 10) := by
  have hslice : jsSlice ids L = ids.take L.toNat := by rw [jsSlice, if_pos hL]
  have hfetch : (PerStory.handler L (.ok (.arr ids)) item page relay).itemFetches
      = ids.take L.toNat := by
    simp only [PerStory.handler, PerStory.fetchJSON]
    rw [perStoryLoop_itemFetches, hslice]
  refine ⟨hfetch, ?_, ?_, ?_⟩
  · rw [hfetch]
    exact List.length_take_le _ _
  · intro j hj
    rw [hfetch]
    exact hj
  · intro j hj
    have hsub : ∀ j : Int,
        j ∈ (Digest.loop item page (ids.take 10)).itemFetches → j ∈ ids.take 10 :=
      digestLoop_itemFetches_sub item page (ids.take 10)
    revert hj
    simp only [Digest.handler, Digest.fetchJSON]
    by_cases ha : (Digest.loop item page (ids.take 10)).aborted
    · simp only [ha, if_true]
      exact hsub j
    · simp only [ha]
      cases relayD <;> · simp only []; exact hsub j

/-- Witness for C4: with upstream list `[1, 2, 3]` and limit 2, exactly the
items 1 and 2 are fetched and id 3 is never requested. -/
theorem lister_respects_limit_witness :
    (PerStory.handler 2 (.ok (.arr [1, 2, 3])) (fun _ => .ok none) (fun _ => .thrown)
        (fun _ => .response true)).itemFetches = [1, 2] ∧
    (3 : Int) ∉ (PerStory.handler 2 (.ok (.arr [1, 2, 3])) (fun _ => .ok none)
        (fun _ => .thrown) (fun _ => .response true)).itemFetches :=
  ⟨((lister_respects_limit 2 (by decide) [1, 2, 3] (fun _ => .ok none) (fun _ => .ok none)
      (fun _ => .thrown) (fun _ => .response true) (.response true)).1).trans (by decide),
   (lister_respects_limit 2 (by decide) [1, 2, 3] (fun _ => .ok none) (fun _ => .ok none)
      (fun _ => .thrown) (fun _ => .response true) (.response true)).2.2.1 3 (by decide)⟩

/-- C5 counterexample: a JSON string is a non-sequence payload the digest
variant fails to reject. On payload `"ab"`, `ids.slice(0, 10)` succeeds (a
string has `slice`), the loop iterates the characters `a`, `b` as ids, each
character item fetch yields `null` so every id is skipped, and the run still
POSTs one (empty) digest notification and answers `{ success: true,
count: 0 }` — no abort, no error status. The per-story variant's
`Array.isArray` check does reject the same payload with a 500. -/
theorem digest_accepts_string_payload :
    (Digest.handler (.ok (.str "ab")) (fun _ => .ok none) (fun _ => .ok none)
        (fun _ => .thrown) (.response true)).response = .success 0 ∧
    (Digest.handler (.ok (.str "ab")) (fun _ => .ok none) (fun _ => .ok none)
        (fun _ => .thrown) (.response true)).response
      ≠ .failure 500 "Failed to fetch or send stories" ∧
    (Digest.handler (.ok (.str "ab")) (fun _ => .ok none) (fun _ => .ok none)
        (fun _ => .thrown) (.response true)).notifications
      = [⟨Digest.TITLE, TAGS, none, ""⟩] ∧
    (Digest.handler (.ok (.str "ab")) (fun _ => .ok none) (fun _ => .ok none)
        (fun _ => .thrown) (.response true)).itemFetchesC = ['a', 'b'] ∧
    (PerStory.handler 10 (.ok (.str "ab")) (fun _ => .ok none) (fun _ => .thrown)
        (fun _ => .response true)).response = .failure 500 "Failed to fetch top stories" := by
  refine ⟨by decide, by decide, by decide, by decide, by decide⟩

/-- C5 amended: when the top-level story-list request fails, or succeeds
with a payload that has no `slice` method (null, boolean, number, object),
either handler aborts the run with a 500 error response, no notification and
no item request; the per-story variant's `Array.isArray` check also rejects
a string payload the same way. The digest variant, however, accepts a string
payload: `ids.slice(0, 10)` succeeds and the run iterates the payload's
first 10 characters as story ids — when each character item fetch yields
JSON `null` (the upstream API's answer for such ids) the run completes with
`{ success: true, count: 0 }` after POSTing one empty digest notification,
having requested exactly those characters. -/
theorem top_fetch_failure_aborts (top : JsonOutcome TopPayload)
    (h : top = .thrown ∨ top = .ok .nonArray) :
    (∀ (L : Int) (item : Int → JsonOutcome (Option Item)) (page : String → FetchOutcome)
        (relay : Nat → RelayOutcome),
        (PerStory.handler L top item page relay).response
          = .failure 500 "Failed to fetch top stories" ∧
        (PerStory.handler L top item page relay).notifications = [] ∧
        (PerStory.handler L top item page relay).itemFetches = []) ∧
    (∀ (item : Int → JsonOutcome (Option Item)) (itemC : Char → JsonOutcome (Option Item))
        (page : String → FetchOutcome) (relay : RelayOutcome),
        (Digest.handler top item itemC page relay).response
          = .failure 500 "Failed to fetch or send stories" ∧
        (Digest.handler top item itemC page relay).notifications = [] ∧
        (Digest.handler top item itemC page relay).itemFetches = [] ∧
        (Digest.handler top item itemC page relay).itemFetchesC = []) ∧
    (∀ (s : String) (L : Int) (item : Int → JsonOutcome (Option Item))
        (page : String → FetchOutcome) (relay : Nat → RelayOutcome),
        (PerStory.handler L (.ok (.str s)) item page relay).response
          = .failure 500 "Failed to fetch top stories" ∧
        (PerStory.handler L (.ok (.str s)) item page relay).notifications = [] ∧
        (PerStory.handler L (.ok (.str s)) item page relay).itemFetches = []) ∧
    (∀ (s : String) (item : Int → JsonOutcome (Option Item))
        (page : String → FetchOutcome) (b : Bool),
        (Digest.handler (.ok (.str s)) item (fun _ => .ok none) page
            (.response b)).response = .success 0 ∧
        (Digest.handler (.ok (.str s)) item (fun _ => .ok none) page
            (.response b)).notifications = [⟨Digest.TITLE, TAGS, none, ""⟩] ∧
        (Digest.handler (.ok (.str s)) item (fun _ => .ok none) page
            (.response b)).itemFetchesC = s.toList.take 10) := by
  refine ⟨?_, ?_, ?_, ?_⟩
  · rcases h with h | h <;> subst h <;> exact fun L item page relay => ⟨rfl, rfl, rfl⟩
  · rcases h with h | h <;> subst h <;>
      exact fun item itemC page relay => ⟨rfl, rfl, rfl, rfl⟩
  · intro s L item page relay
    exact ⟨rfl, rfl, rfl⟩
  · intro s item page b
    simp only [Digest.handler, Digest.fetchJSON]
    rw [digestLoop_null_items page (s.toList.take 10)]
    exact ⟨rfl, rfl, rfl⟩

/-- Witness for C5: a failed top-list fetch aborts both variants, and the
string payload `"ab"` still goes through the digest variant successfully. -/
theorem top_fetch_failure_aborts_witness :
    (PerStory.handler 10 .thrown (fun _ => .ok none) (fun _ => .thrown)
        (fun _ => .response true)).response = .failure 500 "Failed to fetch top stories" ∧
    (Digest.handler .thrown (fun _ => .ok none) (fun _ => .ok none) (fun _ => .thrown)
        (.response true)).response = .failure 500 "Failed to fetch or send stories" ∧
    (Digest.handler (.ok (.str "ab")) (fun _ => .ok none) (fun _ => .ok none)
        (fun _ => .thrown) (.response true)).response = .success 0 :=
  ⟨((top_fetch_failure_aborts .thrown (Or.inl rfl)).1 10 (fun _ => .ok none)
      (fun _ => .thrown) (fun _ => .response true)).1,
   ((top_fetch_failure_aborts .thrown (Or.inl rfl)).2.1 (fun _ => .ok none)
      (fun _ => .ok none) (fun _ => .thrown) (.response true)).1,
   ((top_fetch_failure_aborts .thrown (Or.inl rfl)).2.2.2 "ab" (fun _ => .ok none)
      (fun _ => .thrown) true).1⟩

/-- C6: a story whose item fetch yields no item or whose metadata has no url
field is skipped by both handlers: its article page is never scraped, it
never enters the enriched story sequence, and no notification is attempted
for it. -/
theorem missing_url_never_processed (item : Int → JsonOutcome (Option Item)) (id : Int)
    (h : itemNoUrl (item id)) :
    (∀ (L : Int) (top : JsonOutcome TopPayload) (page : String → FetchOutcome)
        (relay : Nat → RelayOutcome),
        id ∉ (PerStory.handler L top item page relay).scraped ∧
        id ∉ (PerStory.handler L top item page relay).notifiedIds) ∧
    (∀ (top : JsonOutcome TopPayload) (itemC : Char → JsonOutcome (Option Item))
        (page : String → FetchOutcome) (relay : RelayOutcome),
        id ∉ (Digest.handler top item itemC page relay).scraped ∧
        id ∉ (Digest.handler top item itemC page relay).storyIds) := by
  constructor
  · intro L top page relay
    cases top with
    | thrown => simp [PerStory.handler, PerStory.fetchJSON]
    | ok payload =>
      cases payload with
      | nonArray => simp [PerStory.handler, PerStory.fetchJSON]
      | str s => simp [PerStory.handler, PerStory.fetchJSON]
      | arr ids =>
        have hs := perStoryLoop_skips item page relay id h 0 (jsSlice ids L)
        simp only [PerStory.handler, PerStory.fetchJSON]
        exact ⟨hs.1, hs.2⟩
  · intro top itemC page relay
    cases top with
    | thrown => simp [Digest.handler, Digest.fetchJSON]
    | ok payload =>
      cases payload with
      | nonArray => simp [Digest.handler, Digest.fetchJSON]
      | str s =>
        simp only [Digest.handler, Digest.fetchJSON]
        cases ha : (Digest.loop itemC page (s.toList.take 10)).aborted with
        | true => simp [ha]
        | false => cases relay <;> simp [ha]
      | arr ids =>
        have hs := digestLoop_skips item page id h (ids.take 10)
        simp only [Digest.handler, Digest.fetchJSON]
        cases ha : (Digest.loop item page (ids.take 10)).aborted with
        | true => simp [ha, hs.1]
        | false => cases relay <;> simp [ha, hs.1, hs.2]

/-- Witness for C6: id 5 answers with a url-less item and is neither scraped
nor notified in a concrete run. -/
theorem missing_url_never_processed_witness :
    (5 : Int) ∉ (PerStory.handler 10 (.ok (.arr [5]))
        (fun _ => .ok (some ⟨"T", none, none⟩)) (fun _ => .thrown)
        (fun _ => .response true)).notifiedIds ∧
    (5 : Int) ∉ (Digest.handler (.ok (.arr [5]))
        (fun _ => .ok (some ⟨"T", none, none⟩)) (fun _ => .ok none) (fun _ => .thrown)
        (.response true)).storyIds :=
  ⟨((missing_url_never_processed (fun _ => .ok (some ⟨"T", none, none⟩)) 5
      (Or.inr ⟨⟨"T", none, none⟩, rfl, rfl⟩)).1 10 (.ok (.arr [5])) (fun _ => .thrown)
    (fun _ => .response true)).2,
   ((missing_url_never_processed (fun _ => .ok (some ⟨"T", none, none⟩)) 5
      (Or.inr ⟨⟨"T", none, none⟩, rfl, rfl⟩)).2 (.ok (.arr [5])) (fun _ => .ok none)
    (fun _ => .thrown) (.response true)).2⟩

/-- C7 counterexample: in per-story mode, when the enrichment (item metadata
fetch) for the only id fails, `continue` is reached before `sent++`, so no
notification is attempted and the run reports `sent = 0`, not 1 — the
counter does NOT increment for ids whose enrichment failed. -/
theorem sent_counter_skips_failed_enrichment :
    (PerStory.handler 10 (.ok (.arr [1])) (fun _ => .thrown) (fun _ => .thrown)
        (fun _ => .response true)).response = .success 0 ∧
    (PerStory.handler 10 (.ok (.arr [1])) (fun _ => .thrown) (fun _ => .thrown)
        (fun _ => .response true)).response ≠ .success 1 ∧
    (PerStory.handler 10 (.ok (.arr [1])) (fun _ => .thrown) (fun _ => .thrown)
        (fun _ => .response true)).notifiedIds = [] ∧
    (PerStory.handler 10 (.ok (.arr [1])) (fun _ => .thrown) (fun _ => .thrown)
        (fun _ => .response true)).itemFetches = [1] := by
  refine ⟨by decide, by decide, by decide, by decide⟩

/-- C7 amended: in per-story mode the loop visits every id of the truncated
list whatever the oracles answer, the final response is
`{ success: true, sent }` where `sent` counts exactly the ids for which a
notification was attempted (item fetched with a truthy url), and the whole
trace — including the counter — is independent of the notifications'
delivery outcomes; ids whose enrichment failed are skipped without
incrementing. -/
theorem sent_counts_attempted_notifications (L : Int) (ids : List Int)
    (item : Int → JsonOutcome (Option Item)) (page : String → FetchOutcome)
    (r1 r2 : Nat → RelayOutcome) :
    PerStory.handler L (.ok (.arr ids)) item page r1
      = PerStory.handler L (.ok (.arr ids)) item page r2 ∧
    (PerStory.handler L (.ok (.arr ids)) item page r1).response
      = .success (PerStory.handler L (.ok (.arr ids)) item page r1).notifiedIds.length ∧
    (PerStory.handler L (.ok (.arr ids)) item page r1).itemFetches = jsSlice ids L := by
  refine ⟨?_, ?_, ?_⟩
  · simp only [PerStory.handler, PerStory.fetchJSON]
    rw [perStoryLoop_relay_irrelevant item page r1 r2 0 0 (jsSlice ids L)]
  · simp only [PerStory.handler, PerStory.fetchJSON]
    rw [perStoryLoop_sent_eq_length]
  · simp only [PerStory.handler, PerStory.fetchJSON]
    rw [perStoryLoop_itemFetches]

/-- C8: a delivery failure never aborts processing: the whole per-story
trace is independent of the relay outcomes (every subsequent story is still
attempted and the run still succeeds), and the digest run is independent of
the relay's response status, which the code never inspects. -/
theorem delivery_failure_never_fatal :
    (∀ (L : Int) (top : JsonOutcome TopPayload) (item : Int → JsonOutcome (Option Item))
        (page : String → FetchOutcome) (r1 r2 : Nat → RelayOutcome),
        PerStory.handler L top item page r1 = PerStory.handler L top item page r2) ∧
    (∀ (top : JsonOutcome TopPayload) (item : Int → JsonOutcome (Option Item))
        (itemC : Char → JsonOutcome (Option Item)) (page : String → FetchOutcome)
        (b1 b2 : Bool),
        Digest.handler top item itemC page (.response b1)
          = Digest.handler top item itemC page (.response b2)) := by
  constructor
  · intro L top item page r1 r2
    cases top with
    | thrown => rfl
    | ok payload =>
      cases payload with
      | nonArray => rfl
      | str s => rfl
      | arr ids =>
        simp only [PerStory.handler, PerStory.fetchJSON]
        rw [perStoryLoop_relay_irrelevant item page r1 r2 0 0 (jsSlice ids L)]
  · intro top item itemC page b1 b2
    cases top with
    | thrown => rfl
    | ok payload =>
      cases payload with
      | nonArray => rfl
      | str s => rfl
      | arr ids => rfl

/-- C10: `parseInt(process.env.STORY_LIMIT, 10) || 10` resolves to the
default 10 when the variable is unset, `"0"`, or not parseable as an
integer; a limit of 0 is unattainable for any environment value, and such a
run requests up to 10 items rather than 0. -/
theorem story_limit_defaults (v : Option String)
    (h : v = none ∨ v = some "0" ∨ jsParseInt10 v = none) :
    PerStory.LIMIT v = 10 ∧
    (∀ w : Option String, PerStory.LIMIT w ≠ 0) ∧
    (∀ (ids : List Int) (item : Int → JsonOutcome (Option Item))
        (page : String → FetchOutcome) (relay : Nat → RelayOutcome),
        (PerStory.handler (PerStory.LIMIT v) (.ok (.arr ids)) item page relay).itemFetches
          = ids.take 10) := by
  have h10 : PerStory.LIMIT v = 10 := by
    rcases h with h | h | h
    · subst h; rfl
    · subst h; rfl
    · simp [PerStory.LIMIT, jsOrInt, h]
  refine ⟨h10, ?_, ?_⟩
  · intro w
    unfold PerStory.LIMIT jsOrInt
    cases jsParseInt10 w with
    | none => decide
    | some n =>
      by_cases hn : n = 0
      · simp [hn]
      · simp [hn]
  · intro ids item page relay
    rw [h10]
    simp only [PerStory.handler, PerStory.fetchJSON]
    rw [perStoryLoop_itemFetches]
    rw [jsSlice, if_pos (by decide : (0 : Int) ≤ 10)]
    rfl

/-- Witness for C10: a non-numeric STORY_LIMIT value resolves to limit 10. -/
theorem story_limit_defaults_witness :
    PerStory.LIMIT (some "abc") = 10 ∧ PerStory.LIMIT (some "0") = 10 ∧
    PerStory.LIMIT none = 10 :=
  ⟨(story_limit_defaults (some "abc") (Or.inr (Or.inr (by decide)))).1,
   (story_limit_defaults (some "0") (Or.inr (Or.inl rfl))).1,
   (story_limit_defaults none (Or.inl rfl)).1⟩

end HN
